import Mathlib

/-!
Shallow embedding of the `@orthly/context` library: the condition variable
(`src/cond.ts`), the trace-entry serialization helpers (`src/entry.ts`, in the
converged variant that computes `sinceLastEntry`), and the operation-context
state machine (`src/index.ts`, the converged variant with metrics and the
guarded `setStatus`).

Modelling conventions:
* timestamps (`Date.now()`) are `Int` values threaded in as explicit arguments;
  all `Date.now()` reads inside one synchronous public call are modelled as the
  same instant;
* thrown JavaScript values are surfaced as an `Option JsError` / `Except`
  result component, while the state component records the mutations that
  happened before the throw;
* percentages are rationals (`ℚ`), mirroring the division `duration / total`;
* the stack string captured by `new Error()` is an explicit argument, and the
  ambient `__dirname` / `NODE_ENV === 'test'` environment of the serializers is
  passed as parameters.
-/

/-- Substring containment, mirroring JavaScript `String.prototype.includes`. -/
def strContains (s pat : String) : Bool :=
  (List.range (s.toList.length + 1)).any (fun i => pat.toList.isPrefixOf (s.toList.drop i))

/- ### Condition variable (`src/cond.ts`) -/

/-- State of the condition variable `Cond`: the `kLockState` flag and the
`kWaiters` queue (waiters identified by `Nat` tokens; the stall-warning timer is
pure diagnostics and is not modelled). -/
structure Cond where
  lockState : Bool
  waiters : List Nat
deriving Repr, DecidableEq

/-- `lock()`: sets the lock state to held. -/
def Cond.lock (c : Cond) : Cond :=
  { c with lockState := true }

/-- `signal()`: dequeues (shifts) the front waiter, if any, and resolves it. -/
def Cond.signal (c : Cond) : Cond × Option Nat :=
  match c.waiters with
  | [] => (c, none)
  | w :: ws => ({ c with waiters := ws }, some w)

/-- The `while (waiters.length) signal()` loop of `unlock()`: repeatedly
dequeues the front waiter; returns the waiters in the order they are
resolved. -/
def Cond.drain : List Nat → List Nat
  | [] => []
  | w :: ws => w :: Cond.drain ws

/-- `unlock()`: clears the lock state, then drains the waiter queue, resolving
each dequeued waiter.  Returns the new state and the list of waiters in
resolution order. -/
def Cond.unlock (c : Cond) : Cond × List Nat :=
  let c1 : Cond := { c with lockState := false }
  ({ c1 with waiters := [] }, Cond.drain c1.waiters)

/-- `wait()`: if the lock state is released, resolve immediately (second
component `true`); otherwise push the caller onto the waiter queue and stay
suspended (second component `false`). -/
def Cond.wait (c : Cond) (w : Nat) : Cond × Bool :=
  if c.lockState = false then (c, true)
  else ({ c with waiters := c.waiters ++ [w] }, false)

/- ### Trace entries and their serialization (`src/entry.ts`) -/

/-- Entry values (`Record<string, any>`); the claims never inspect the payload,
so any concrete carrier with decidable equality serves. -/
abbrev Values := List (String × Int)

/-- `OperationContextEntry`: the values, the stack string captured by
`new Error()` at creation, and the creation timestamp. -/
structure OperationContextEntry where
  values : Values
  errorStack : String
  createdAt : Int
deriving Repr, DecidableEq

/-- `OperationContextEntryJSON` (long form, with `sinceLastEntry`). -/
structure OperationContextEntryJSON where
  values : Values
  stacktrace : List String
  createdAt : Int
  sinceLastEntry : Int
deriving Repr, DecidableEq

/-- The short-form entry JSON (no `sinceLastEntry`). -/
structure OperationContextEntryShortJSON where
  values : Values
  stacktrace : List String
  createdAt : Int
deriving Repr, DecidableEq

/-- The line filter of `createLongJSONFromEntry`: keep a line unless it belongs
to the library itself (`__dirname`), except that in test mode internal lines
are kept when they come from the test harness. -/
def keepLine (dirname : String) (testEnv : Bool) (line : String) : Bool :=
  if !(strContains line dirname) then true
  else if testEnv then strContains line "/__test__/"
  else false

/-- Split a character list at newline characters (the splitter of
`String.prototype.split('\n')`). -/
def splitNlAux : List Char → List Char → List String
  | [], acc => [String.mk acc.reverse]
  | c :: cs, acc =>
    if c = '\n' then String.mk acc.reverse :: splitNlAux cs []
    else splitNlAux cs (c :: acc)

/-- `String(entry.error.stack || entry.error).split('\n')`. -/
def stackLines (stackStr : String) : List String :=
  splitNlAux stackStr.toList []

/-- `String.prototype.trim`: strip whitespace from both ends. -/
def trimLine (s : String) : String :=
  String.mk (((s.toList.dropWhile Char.isWhitespace).reverse.dropWhile
    Char.isWhitespace).reverse)

/-- The long-form stacktrace: drop the first (message) line, trim each line,
and filter out internal lines. -/
def longStacktrace (dirname : String) (testEnv : Bool) (stackStr : String) : List String :=
  (((stackLines stackStr).drop 1).map trimLine).filter (keepLine dirname testEnv)

/-- The short-form stacktrace: `.split('\n').slice(1, 2)`. -/
def shortStacktrace (stackStr : String) : List String :=
  ((stackLines stackStr).drop 1).take 1

/-- `createLongJSONFromEntry(entry, index, entries)`: long-form serialization of
one entry; `sinceLastEntry` is the gap to the previous entry's `createdAt`, or
`-1` for the first entry. -/
def createLongJSONFromEntry (dirname : String) (testEnv : Bool)
    (entry : OperationContextEntry) (index : Nat)
    (entries : List OperationContextEntry) : OperationContextEntryJSON :=
  { values := entry.values
    stacktrace := longStacktrace dirname testEnv entry.errorStack
    createdAt := entry.createdAt
    sinceLastEntry :=
      if index > 0 then
        entry.createdAt - (entries.getD (index - 1) ⟨[], "", 0⟩).createdAt
      else -1 }

/-- `createShortJSONFromEntry(entry)`: short-form serialization of one entry. -/
def createShortJSONFromEntry (entry : OperationContextEntry) :
    OperationContextEntryShortJSON :=
  { values := entry.values
    stacktrace := shortStacktrace entry.errorStack
    createdAt := entry.createdAt }

/-- JavaScript `Array.prototype.map` passes `(element, index, array)` to its
callback; `jsMapAux f full n l` maps `f` over `l` with indices starting at `n`
and the full array `full`. -/
def jsMapAux (f : OperationContextEntry → Nat → List OperationContextEntry → OperationContextEntryJSON)
    (full : List OperationContextEntry) : Nat → List OperationContextEntry → List OperationContextEntryJSON
  | _, [] => []
  | n, x :: xs => f x n full :: jsMapAux f full (n + 1) xs

/-- `entries.map(createLongJSONFromEntry)` in JavaScript semantics. -/
def jsMap (f : OperationContextEntry → Nat → List OperationContextEntry → OperationContextEntryJSON)
    (l : List OperationContextEntry) : List OperationContextEntryJSON :=
  jsMapAux f l 0 l

/- ### The operation context (`src/index.ts`, converged variant) -/

/-- `OperationContextStatus`. -/
inductive OperationContextStatus where
  | running
  | failed
  | cancelled
  | ended
deriving Repr, DecidableEq

/-- The string value of the TS enum member, as spliced into error messages. -/
def statusToString : OperationContextStatus → String
  | .running => "running"
  | .failed => "failed"
  | .cancelled => "cancelled"
  | .ended => "ended"

/-- `OperationError`: message plus `failedAt = Date.now()`.  The `context`
back-reference is the owning operation itself (a cyclic reference), so it is
not carried in the value; error identity is value identity of this record
together with its position in the `errors` list. -/
structure OperationError where
  message : String
  failedAt : Int
deriving Repr, DecidableEq

/-- A thrown JavaScript value: either a plain `Error` (only `setStatus`'s
status-guard produces one) or an `OperationError`. -/
inductive JsError where
  | plain (message : String)
  | opErr (e : OperationError)
deriving Repr, DecidableEq

/-- `OperationMetricEntry`: one discrete timer event. -/
structure OperationMetricEntry where
  name : String
  startedAt : Int
  duration : Int
  percentage : ℚ
deriving Repr, DecidableEq

/-- `OperationCumulativeMetric`: per-name aggregation of timer events. -/
structure OperationCumulativeMetric where
  name : String
  numberOfEvents : Nat
  totalDuration : Int
  totalPercentage : ℚ
deriving Repr, DecidableEq

/-- `OperationMetrics`. -/
structure OperationMetrics where
  entries : List OperationMetricEntry
  cumulative : List OperationCumulativeMetric
deriving Repr, DecidableEq

/-- The full mutable state of an `OperationContext`.  `timeoutSet` is the
`this.timeout` handle field (never cleared once assigned: `end()` cancels the
scheduled callback with `clearTimeout` but does not unset the field);
`activeProcesses` is the length of the `activeProcesses` array, which only ever
grows. -/
structure OperationContext where
  status : OperationContextStatus
  waitCond : Cond
  stack : List OperationContextEntry
  errors : List OperationError
  metrics : OperationMetrics
  startedAt : Int
  endedAt : Option Int
  timeoutSet : Bool
  timeoutError : Option OperationError
  activeProcesses : Nat
deriving Repr, DecidableEq

/-- The `new OperationContext()` state at time `t0`: status `running`, the
condition variable freshly locked, everything else empty. -/
def OperationContext.initial (t0 : Int) : OperationContext :=
  { status := .running
    waitCond := Cond.lock ⟨false, []⟩
    stack := []
    errors := []
    metrics := ⟨[], []⟩
    startedAt := t0
    endedAt := none
    timeoutSet := false
    timeoutError := none
    activeProcesses := 0 }

/-- `isRunning()`. -/
def OperationContext.isRunning (s : OperationContext) : Bool :=
  s.status = .running

/-- The descending order used by the final cumulative sort: the comparator
`(a, b) => b.totalPercentage - a.totalPercentage` places larger total
percentages first. -/
def cumDescRel (a b : OperationCumulativeMetric) : Prop :=
  b.totalPercentage ≤ a.totalPercentage

instance : DecidableRel cumDescRel := fun a b =>
  inferInstanceAs (Decidable (b.totalPercentage ≤ a.totalPercentage))

instance : IsTotal OperationCumulativeMetric cumDescRel :=
  ⟨fun a b => le_total b.totalPercentage a.totalPercentage⟩

instance : IsTrans OperationCumulativeMetric cumDescRel :=
  ⟨fun _ _ _ h1 h2 => le_trans h2 h1⟩

/-- The metrics finalization performed by `setStatus` once `endedAt` is known:
back-fill every discrete entry's `percentage` and every cumulative entry's
`totalPercentage` from the total duration, then sort the cumulative list
descending by `totalPercentage`. -/
def finalizeMetrics (m : OperationMetrics) (totalDuration : Int) : OperationMetrics :=
  { entries := m.entries.map fun e =>
      { e with percentage := (e.duration : ℚ) / (totalDuration : ℚ) }
    cumulative := List.insertionSort cumDescRel
      (m.cumulative.map fun c =>
        { c with totalPercentage := (c.totalDuration : ℚ) / (totalDuration : ℚ) }) }

/-- The success branch of `setStatus`: store the new status, stamp `endedAt`,
unlock the condition variable, and finalize the metrics. -/
def OperationContext.applyTerminal (s : OperationContext)
    (st : OperationContextStatus) (now : Int) : OperationContext :=
  { s with
    status := st
    endedAt := some now
    waitCond := (s.waitCond.unlock).1
    metrics := finalizeMetrics s.metrics (now - s.startedAt) }

/-- `setStatus(status)`: throws `Cannot change status from X` unless the
current status is `running`; otherwise applies the terminal transition. -/
def OperationContext.setStatus (s : OperationContext)
    (st : OperationContextStatus) (now : Int) : OperationContext × Option JsError :=
  if s.status ≠ .running then
    (s, some (.plain ("Cannot change status from " ++ statusToString s.status)))
  else
    (s.applyTerminal st now, none)

/-- `createError(message)`: stamp `endedAt` if unset, call
`setStatus(failed)` (whose guard may throw), then construct, record, and
return the new `OperationError`.  The state component carries the mutations
performed even when `setStatus` throws. -/
def OperationContext.createError (s : OperationContext) (message : String)
    (now : Int) : OperationContext × Except JsError OperationError :=
  let s1 := if s.endedAt = none then { s with endedAt := some now } else s
  match s1.setStatus .failed now with
  | (s2, some j) => (s2, .error j)
  | (s2, none) =>
    let err : OperationError := ⟨message, now⟩
    ({ s2 with errors := s2.errors ++ [err] }, .ok err)

/-- `checkpoint()`: throw the cached `timeoutError` if a timeout has fired;
otherwise, if the status has left `running`, throw
`this.createError('Operation is not running (status: X)')` — note that the
`throw` rethrows whatever evaluating `createError` produces; otherwise
succeed. -/
def OperationContext.checkpoint (s : OperationContext) (now : Int) :
    OperationContext × Option JsError :=
  match s.timeoutError with
  | some te => (s, some (.opErr te))
  | none =>
    if s.isRunning then (s, none)
    else
      match s.createError
        ("Operation is not running (status: " ++ statusToString s.status ++ ")") now with
      | (s1, .ok e) => (s1, some (.opErr e))
      | (s1, .error j) => (s1, some j)

/-- `setValues(values)`: checkpoint, then push a new entry carrying the
values, a freshly captured stack string, and the current time. -/
def OperationContext.setValues (s : OperationContext) (v : Values)
    (stackStr : String) (now : Int) : OperationContext × Option JsError :=
  match s.checkpoint now with
  | (s1, some j) => (s1, some j)
  | (s1, none) =>
    ({ s1 with stack := s1.stack ++ [⟨v, stackStr, now⟩] }, none)

/-- `cancel()`: checkpoint, then `setStatus(cancelled)`. -/
def OperationContext.cancel (s : OperationContext) (now : Int) :
    OperationContext × Option JsError :=
  match s.checkpoint now with
  | (s1, some j) => (s1, some j)
  | (s1, none) =>
    match s1.setStatus .cancelled now with
    | (s2, some j) => (s2, some j)
    | (s2, none) => (s2, none)

/-- `setTimeout(maxTime)`: if a timeout handle already exists, throw
`this.createError('Cannot set another timeout on the operation')`; otherwise
schedule the timer (set the handle field) without consulting the status. -/
def OperationContext.setTimeout (s : OperationContext) (maxTime : Int)
    (now : Int) : OperationContext × Option JsError :=
  if s.timeoutSet then
    match s.createError "Cannot set another timeout on the operation" now with
    | (s1, .ok e) => (s1, some (.opErr e))
    | (s1, .error j) => (s1, some j)
  else
    ({ s with timeoutSet := true }, none)

/-- The scheduled timeout callback: guarded by `isRunning()`; when still
running it creates the timed-out error and caches it in `timeoutError`. -/
def OperationContext.timeoutFire (s : OperationContext) (maxTime : Int)
    (now : Int) : OperationContext :=
  if s.isRunning then
    match s.createError ("Operation timed out after " ++ toString maxTime ++ "ms") now with
    | (s1, .ok e) => { s1 with timeoutError := some e }
    | (s1, .error _) => s1
  else s

/-- `end()`: checkpoint; throw a gating error (via `createError`) while any
background process is registered; clear the pending timer (the handle field
stays set); then `setStatus(ended)`. -/
def OperationContext.endOp (s : OperationContext) (now : Int) :
    OperationContext × Option JsError :=
  match s.checkpoint now with
  | (s1, some j) => (s1, some j)
  | (s1, none) =>
    if s1.activeProcesses > 0 then
      match s1.createError
        "Cannot end an operation with background processes, please use .wait()" now with
      | (s2, .ok e) => (s2, some (.opErr e))
      | (s2, .error j) => (s2, some j)
    else
      match s1.setStatus .ended now with
      | (s2, some j) => (s2, some j)
      | (s2, none) => (s2, none)

/-- The `cumulativeEntry.numberOfEvents++; cumulativeEntry.totalDuration +=
duration` mutation of `startTimer`'s `end()` closure, applied to the matching
cumulative entry. -/
def bumpCumulative (name : String) (duration : Int)
    (c : OperationCumulativeMetric) : OperationCumulativeMetric :=
  if c.name = name then
    { c with numberOfEvents := c.numberOfEvents + 1, totalDuration := c.totalDuration + duration }
  else c

/-- The `end()` closure of `startTimer(name)`: push a discrete metric entry
with sentinel percentage `-1`; find (or create, with sentinel `-1`) the
cumulative entry of the same name, increment its event count, and add the
duration.  `find` returns the first match, and names are unique because a
cumulative entry is only ever created when none exists, so mutating the first
match is mutating the only match. -/
def OperationContext.timerEnd (s : OperationContext) (name : String)
    (timerStartedAt now : Int) : OperationContext :=
  let duration := now - timerStartedAt
  let entries1 := s.metrics.entries ++
    [{ name := name, startedAt := timerStartedAt, duration := duration, percentage := -1 }]
  let cum0 := s.metrics.cumulative
  let cum1 :=
    if cum0.any (fun c => c.name = name) then cum0
    else cum0 ++ [{ name := name, numberOfEvents := 0, totalDuration := 0, totalPercentage := -1 }]
  let cum2 := cum1.map (bumpCumulative name duration)
  { s with metrics := { entries := entries1, cumulative := cum2 } }

/-- `addBackgroundProcess(promise)`: push the wrapped promise onto
`activeProcesses`, then checkpoint (deliberately after the push). -/
def OperationContext.addBackgroundProcess (s : OperationContext) (now : Int) :
    OperationContext × Option JsError :=
  let s1 := { s with activeProcesses := s.activeProcesses + 1 }
  s1.checkpoint now

/-- The rejection handler wrapped around a background process: calls
`createError` with the rejection message; a throw out of `createError` only
rejects the wrapper promise, so it is dropped here. -/
def OperationContext.bgFail (s : OperationContext) (message : String)
    (now : Int) : OperationContext :=
  (s.createError message now).1

/-- The decision `wait()` takes after waking: reject with the first recorded
error if any, otherwise resolve.  (Whenever a background wrapper rejects, the
operation is already terminal and the condition variable already released, so
`Promise.race` always completes and control always reaches this point.) -/
def OperationContext.waitOutcome (s : OperationContext) : Option OperationError :=
  s.errors.head?

/-- `toJSON().trace`: the long-form serialization of the stack. -/
def OperationContext.toJSONTrace (dirname : String) (testEnv : Bool)
    (s : OperationContext) : List OperationContextEntryJSON :=
  jsMap (createLongJSONFromEntry dirname testEnv) s.stack

/-- `toShortJSON().trace`: the short-form serialization of the stack. -/
def OperationContext.toShortJSONTrace (s : OperationContext) :
    List OperationContextEntryShortJSON :=
  s.stack.map createShortJSONFromEntry

/-- One externally triggered step against an operation context: the public
mutators, a timer handle's `end()`, the timeout callback firing, and the
settlement of a background process. -/
inductive Op where
  | setValues (v : Values) (stackStr : String) (now : Int)
  | cancel (now : Int)
  | endOp (now : Int)
  | createError (message : String) (now : Int)
  | setTimeout (maxTime : Int) (now : Int)
  | timeoutFire (maxTime : Int) (now : Int)
  | timerEnd (name : String) (timerStartedAt now : Int)
  | addBackgroundProcess (now : Int)
  | bgFail (message : String) (now : Int)
  | bgOk
deriving Repr, DecidableEq

/-- Execute one step: the resulting state plus the thrown error, if any. -/
def execOp (s : OperationContext) : Op → OperationContext × Option JsError
  | .setValues v str now => s.setValues v str now
  | .cancel now => s.cancel now
  | .endOp now => s.endOp now
  | .createError msg now =>
    match s.createError msg now with
    | (s1, .ok _) => (s1, none)
    | (s1, .error j) => (s1, some j)
  | .setTimeout maxTime now => s.setTimeout maxTime now
  | .timeoutFire maxTime now => (s.timeoutFire maxTime now, none)
  | .timerEnd name t0 now => (s.timerEnd name t0 now, none)
  | .addBackgroundProcess now => s.addBackgroundProcess now
  | .bgFail msg now => (s.bgFail msg now, none)
  | .bgOk => (s, none)

/-- Run a sequence of steps, keeping only the evolving state (thrown errors
go back to the individual callers). -/
def execTrace (s : OperationContext) : List Op → OperationContext
  | [] => s
  | op :: ops => execTrace (execOp s op).1 ops

/- ### Helper lemmas -/

lemma Cond.drain_eq (l : List Nat) : Cond.drain l = l := by
  induction l with
  | nil => rfl
  | cons w ws ih => simp [Cond.drain, ih]

lemma Cond.unlock_eq (c : Cond) : c.unlock = (⟨false, []⟩, c.waiters) := by
  simp [Cond.unlock, Cond.drain_eq]

lemma jsMapAux_length (f : OperationContextEntry → Nat → List OperationContextEntry → OperationContextEntryJSON)
    (full : List OperationContextEntry) (n : Nat) (l : List OperationContextEntry) :
    (jsMapAux f full n l).length = l.length := by
  induction l generalizing n with
  | nil => rfl
  | cons x xs ih => simp [jsMapAux, ih]

lemma jsMapAux_getD (f : OperationContextEntry → Nat → List OperationContextEntry → OperationContextEntryJSON)
    (full : List OperationContextEntry) (n : Nat) (l : List OperationContextEntry)
    (i : Nat) (h : i < l.length) :
    (jsMapAux f full n l).getD i ⟨[], [], 0, 0⟩ = f (l.getD i ⟨[], "", 0⟩) (n + i) full := by
  induction l generalizing n i with
  | nil => simp at h
  | cons x xs ih =>
    cases i with
    | zero => simp [jsMapAux]
    | succ j =>
      have hj : j < xs.length := by simpa using h
      have := ih (n + 1) j hj
      simpa [jsMapAux, Nat.add_assoc, Nat.add_comm 1 j] using this

/- ### C9: condition variable unlock/wait semantics -/

/-- C9: on a held condition variable with waiters `w1, ..., wn` queued in
enqueue order, a single `unlock()` call sets the state to released and
resolves every queued waiter in FIFO (enqueue) order within that call; a
`wait()` issued while the state is held enqueues at the tail (so queue order
is enqueue order), and a `wait()` issued while the state is released resolves
immediately without enqueuing a waiter. -/
theorem cond_unlock_fifo_wait_released :
    (∀ c : Cond, c.lockState = true → c.unlock = (⟨false, []⟩, c.waiters)) ∧
    (∀ (c : Cond) (w : Nat), c.lockState = true →
      c.wait w = ({ c with waiters := c.waiters ++ [w] }, false)) ∧
    (∀ (c : Cond) (w : Nat), c.lockState = false → c.wait w = (c, true)) := by
  refine ⟨fun c _ => Cond.unlock_eq c, fun c w h => ?_, fun c w h => ?_⟩
  · simp [Cond.wait, h]
  · simp [Cond.wait, h]

/-- Witness for C9 at a concrete held queue `[1, 2, 3]` and a released state. -/
theorem cond_unlock_fifo_wait_released_witness :
    Cond.unlock ⟨true, [1, 2, 3]⟩ = (⟨false, []⟩, [1, 2, 3]) ∧
    Cond.wait ⟨true, [1, 2, 3]⟩ 7 = (⟨true, [1, 2, 3, 7]⟩, false) ∧
    Cond.wait ⟨false, [5]⟩ 9 = (⟨false, [5]⟩, true) :=
  ⟨cond_unlock_fifo_wait_released.1 ⟨true, [1, 2, 3]⟩ rfl,
   cond_unlock_fifo_wait_released.2.1 ⟨true, [1, 2, 3]⟩ 7 rfl,
   cond_unlock_fifo_wait_released.2.2 ⟨false, [5]⟩ 9 rfl⟩

/- ### C4: sinceLastEntry in the long-form trace -/

/-- C4: the long-form trace `toJSON().trace` has one JSON entry per stack
entry, and entry `i` carries `sinceLastEntry` equal to the elapsed time since
the previous entry's creation, with `-1` for the first entry. -/
theorem toJSONTrace_sinceLastEntry (dirname : String) (testEnv : Bool)
    (s : OperationContext) (i : Nat) (h : i < s.stack.length) :
    (s.toJSONTrace dirname testEnv).length = s.stack.length ∧
    ((s.toJSONTrace dirname testEnv).getD i ⟨[], [], 0, 0⟩).sinceLastEntry =
      (if i = 0 then -1
       else (s.stack.getD i ⟨[], "", 0⟩).createdAt -
         (s.stack.getD (i - 1) ⟨[], "", 0⟩).createdAt) := by
  constructor
  · simpa [OperationContext.toJSONTrace, jsMap] using
      jsMapAux_length (createLongJSONFromEntry dirname testEnv) s.stack 0 s.stack
  · have hg := jsMapAux_getD (createLongJSONFromEntry dirname testEnv) s.stack 0 s.stack i h
    simp only [OperationContext.toJSONTrace, jsMap, hg, Nat.zero_add]
    by_cases h0 : i = 0
    · simp [createLongJSONFromEntry, h0]
    · have : i > 0 := Nat.pos_of_ne_zero h0
      simp [createLongJSONFromEntry, h0, this]

/-- Witness for C4 on a two-entry stack, at index 1. -/
theorem toJSONTrace_sinceLastEntry_witness :
    (OperationContext.toJSONTrace "/lib" false
        { OperationContext.initial 100 with
          stack := [⟨[], "E", 105⟩, ⟨[], "E", 112⟩] }).length = 2 ∧
    ((OperationContext.toJSONTrace "/lib" false
        { OperationContext.initial 100 with
          stack := [⟨[], "E", 105⟩, ⟨[], "E", 112⟩] }).getD 1 ⟨[], [], 0, 0⟩).sinceLastEntry = 7 := by
  have := toJSONTrace_sinceLastEntry "/lib" false
    { OperationContext.initial 100 with stack := [⟨[], "E", 105⟩, ⟨[], "E", 112⟩] }
    1 (by decide)
  exact ⟨this.1, by rw [this.2]; rfl⟩

/- ### C8: short vs long stacktrace lengths -/

/-- C8 counterexample: for an entry whose only post-header stack line is an
internal frame (it contains the library `__dirname` and the environment is not
test mode), the long form filters that line out while the short form keeps it,
so the long stacktrace is strictly shorter than the short one — refuting
"`toJSON()`'s stacktrace length is always ≥ `toShortJSON()`'s". -/
theorem long_shorter_than_short_counterexample :
    (createLongJSONFromEntry "/lib/context" false
        ⟨[], "Error\n    at x (/lib/context/index.js:1:1)", 0⟩ 0 []).stacktrace.length <
      (createShortJSONFromEntry
        ⟨[], "Error\n    at x (/lib/context/index.js:1:1)", 0⟩).stacktrace.length := by
  decide

/-- C8 amended: for every entry, `toShortJSON()`'s stacktrace has length at
most 1; and `toJSON()`'s stacktrace is at least as long as the short form's
provided every post-header line of the entry's captured stack survives the
internal-frame filter (in general the long form may drop internal frames and
end up shorter than the short form, which keeps the first line unfiltered). -/
theorem short_le_one_and_long_ge_short (dirname : String) (testEnv : Bool)
    (e : OperationContextEntry) (i : Nat) (full : List OperationContextEntry)
    (h : ∀ l ∈ (stackLines e.errorStack).drop 1,
      keepLine dirname testEnv (trimLine l) = true) :
    (createShortJSONFromEntry e).stacktrace.length ≤ 1 ∧
    (createShortJSONFromEntry e).stacktrace.length ≤
      (createLongJSONFromEntry dirname testEnv e i full).stacktrace.length := by
  have hshort : (createShortJSONFromEntry e).stacktrace =
      ((stackLines e.errorStack).drop 1).take 1 := rfl
  have hfilter :
      (((stackLines e.errorStack).drop 1).map trimLine).filter (keepLine dirname testEnv) =
        ((stackLines e.errorStack).drop 1).map trimLine := by
    apply List.filter_eq_self.mpr
    intro x hx
    rcases List.mem_map.mp hx with ⟨l, hl, rfl⟩
    exact h l hl
  have hlong : (createLongJSONFromEntry dirname testEnv e i full).stacktrace.length =
      ((stackLines e.errorStack).drop 1).length := by
    show ((((stackLines e.errorStack).drop 1).map trimLine).filter
      (keepLine dirname testEnv)).length = _
    rw [hfilter, List.length_map]
  constructor
  · rw [hshort, List.length_take]
    exact min_le_left 1 _
  · rw [hshort, List.length_take, hlong]
    exact min_le_right 1 _

/-- Witness for C8's amended claim on a stack with two external frames. -/
theorem short_le_one_and_long_ge_short_witness :
    (createShortJSONFromEntry ⟨[], "Error\n    at f (/app/a.js:1:1)\n    at g (/app/b.js:2:2)", 3⟩).stacktrace.length ≤ 1 ∧
    (createShortJSONFromEntry ⟨[], "Error\n    at f (/app/a.js:1:1)\n    at g (/app/b.js:2:2)", 3⟩).stacktrace.length ≤
      (createLongJSONFromEntry "/lib/context" false
        ⟨[], "Error\n    at f (/app/a.js:1:1)\n    at g (/app/b.js:2:2)", 3⟩ 0 []).stacktrace.length :=
  short_le_one_and_long_ge_short "/lib/context" false
    ⟨[], "Error\n    at f (/app/a.js:1:1)\n    at g (/app/b.js:2:2)", 3⟩ 0 [] (by decide)

/- ### C3: wait rejects with the first recorded error -/

lemma applyTerminal_errors (s : OperationContext) (st : OperationContextStatus)
    (now : Int) : (s.applyTerminal st now).errors = s.errors := rfl

lemma createError_errors (s : OperationContext) (m : String) (t : Int) :
    ∃ tail, ((s.createError m t).1).errors = s.errors ++ tail := by
  unfold OperationContext.createError OperationContext.setStatus
  by_cases h1 : s.endedAt = none <;> by_cases h2 : s.status = OperationContextStatus.running <;>
    simp [h1, h2, applyTerminal_errors]

lemma checkpoint_errors (s : OperationContext) (t : Int) :
    ∃ tail, ((s.checkpoint t).1).errors = s.errors ++ tail := by
  unfold OperationContext.checkpoint
  cases hte : s.timeoutError with
  | some te => exact ⟨[], by simp⟩
  | none =>
    by_cases hr : s.isRunning
    · exact ⟨[], by simp [hr]⟩
    · obtain ⟨tl, htl⟩ := createError_errors s
        ("Operation is not running (status: " ++ statusToString s.status ++ ")") t
      rcases hce : s.createError
        ("Operation is not running (status: " ++ statusToString s.status ++ ")") t with ⟨s1, r⟩
      have h1 : s1.errors = s.errors ++ tl := by rw [← htl, hce]
      cases r <;> simp [hr, hce] <;> exact ⟨tl, h1⟩

/-- C3: after waking, `wait()` resolves when no error was ever recorded and
rejects with exactly the first recorded error otherwise, even when later
errors exist; and every operation only ever appends to the `errors` list, so
the head of the list is the first error in recording order. -/
theorem wait_rejects_with_first_error :
    (∀ s : OperationContext, s.errors = [] → s.waitOutcome = none) ∧
    (∀ (s : OperationContext) (e : OperationError) (rest : List OperationError),
      s.errors = e :: rest → s.waitOutcome = some e) ∧
    (∀ (s : OperationContext) (op : Op),
      ∃ tail, ((execOp s op).1).errors = s.errors ++ tail) := by
  refine ⟨fun s h => by simp [OperationContext.waitOutcome, h],
    fun s e rest h => by simp [OperationContext.waitOutcome, h], fun s op => ?_⟩
  cases op with
  | setValues v str now =>
    obtain ⟨tl, htl⟩ := checkpoint_errors s now
    rcases hcp : s.checkpoint now with ⟨s1, j⟩
    have h1 : s1.errors = s.errors ++ tl := by rw [← htl, hcp]
    cases j <;> simp [execOp, OperationContext.setValues, hcp] <;> exact ⟨tl, h1⟩
  | cancel now =>
    obtain ⟨tl, htl⟩ := checkpoint_errors s now
    rcases hcp : s.checkpoint now with ⟨s1, j⟩
    have h1 : s1.errors = s.errors ++ tl := by rw [← htl, hcp]
    cases j with
    | some j => exact ⟨tl, by simp [execOp, OperationContext.cancel, hcp, h1]⟩
    | none =>
      simp only [execOp, OperationContext.cancel, hcp]
      unfold OperationContext.setStatus
      by_cases h2 : s1.status = OperationContextStatus.running <;>
        simp [h2, applyTerminal_errors] <;> exact ⟨tl, h1⟩
  | endOp now =>
    obtain ⟨tl, htl⟩ := checkpoint_errors s now
    rcases hcp : s.checkpoint now with ⟨s1, j⟩
    have h1 : s1.errors = s.errors ++ tl := by rw [← htl, hcp]
    cases j with
    | some j => exact ⟨tl, by simp [execOp, OperationContext.endOp, hcp, h1]⟩
    | none =>
      simp only [execOp, OperationContext.endOp, hcp]
      by_cases hbg : s1.activeProcesses > 0
      · obtain ⟨tl2, htl2⟩ := createError_errors s1
          "Cannot end an operation with background processes, please use .wait()" now
        rcases hce : s1.createError
          "Cannot end an operation with background processes, please use .wait()" now with ⟨s2, r⟩
        have h2 : s2.errors = s1.errors ++ tl2 := by rw [← htl2, hce]
        cases r <;> simp [hbg, hce] <;> exact ⟨tl ++ tl2, by rw [h2, h1, List.append_assoc]⟩
      · unfold OperationContext.setStatus
        by_cases h2 : s1.status = OperationContextStatus.running <;>
          simp [hbg, h2, applyTerminal_errors] <;> exact ⟨tl, h1⟩
  | createError m now =>
    obtain ⟨tl, htl⟩ := createError_errors s m now
    rcases hce : s.createError m now with ⟨s1, r⟩
    have h1 : s1.errors = s.errors ++ tl := by rw [← htl, hce]
    cases r <;> simp [execOp, hce] <;> exact ⟨tl, h1⟩
  | setTimeout maxT now =>
    by_cases hts : s.timeoutSet
    · obtain ⟨tl, htl⟩ := createError_errors s "Cannot set another timeout on the operation" now
      rcases hce : s.createError "Cannot set another timeout on the operation" now with ⟨s1, r⟩
      have h1 : s1.errors = s.errors ++ tl := by rw [← htl, hce]
      cases r <;> simp [execOp, OperationContext.setTimeout, hts, hce] <;> exact ⟨tl, h1⟩
    · exact ⟨[], by simp [execOp, OperationContext.setTimeout, hts]⟩
  | timeoutFire maxT now =>
    by_cases hr : s.isRunning
    · obtain ⟨tl, htl⟩ := createError_errors s
        ("Operation timed out after " ++ toString maxT ++ "ms") now
      rcases hce : s.createError ("Operation timed out after " ++ toString maxT ++ "ms") now with ⟨s1, r⟩
      have h1 : s1.errors = s.errors ++ tl := by rw [← htl, hce]
      cases r <;> simp [execOp, OperationContext.timeoutFire, hr, hce] <;> exact ⟨tl, h1⟩
    · exact ⟨[], by simp [execOp, OperationContext.timeoutFire, hr]⟩
  | timerEnd name t0 now =>
    exact ⟨[], by simp [execOp, OperationContext.timerEnd]⟩
  | addBackgroundProcess now =>
    obtain ⟨tl, htl⟩ := checkpoint_errors { s with activeProcesses := s.activeProcesses + 1 } now
    exact ⟨tl, by simpa [execOp, OperationContext.addBackgroundProcess] using htl⟩
  | bgFail m now =>
    obtain ⟨tl, htl⟩ := createError_errors s m now
    exact ⟨tl, by simpa [execOp, OperationContext.bgFail] using htl⟩
  | bgOk => exact ⟨[], by simp [execOp]⟩

/-- Witness for C3: a context with two recorded errors rejects with the first;
an error-free context resolves; and a step appends to the error list. -/
theorem wait_rejects_with_first_error_witness :
    OperationContext.waitOutcome
      { OperationContext.initial 100 with errors := [⟨"E1", 110⟩, ⟨"E2", 120⟩] } = some ⟨"E1", 110⟩ ∧
    OperationContext.waitOutcome (OperationContext.initial 100) = none ∧
    ∃ tail, ((execOp (OperationContext.initial 100) (Op.bgFail "boom" 130)).1).errors =
      (OperationContext.initial 100).errors ++ tail :=
  ⟨wait_rejects_with_first_error.2.1
      { OperationContext.initial 100 with errors := [⟨"E1", 110⟩, ⟨"E2", 120⟩] }
      ⟨"E1", 110⟩ [⟨"E2", 120⟩] rfl,
   wait_rejects_with_first_error.1 (OperationContext.initial 100) rfl,
   wait_rejects_with_first_error.2.2 (OperationContext.initial 100) (Op.bgFail "boom" 130)⟩

/- ### C10 / C7: setTimeout and the timeout guard -/

lemma applyTerminal_timeoutSet (s : OperationContext) (st : OperationContextStatus)
    (now : Int) : (s.applyTerminal st now).timeoutSet = s.timeoutSet := rfl

lemma createError_timeoutSet (s : OperationContext) (m : String) (t : Int) :
    ((s.createError m t).1).timeoutSet = s.timeoutSet := by
  unfold OperationContext.createError OperationContext.setStatus
  by_cases h1 : s.endedAt = none <;> by_cases h2 : s.status = OperationContextStatus.running <;>
    simp [h1, h2, applyTerminal_timeoutSet]

lemma checkpoint_timeoutSet (s : OperationContext) (t : Int) :
    ((s.checkpoint t).1).timeoutSet = s.timeoutSet := by
  unfold OperationContext.checkpoint
  cases hte : s.timeoutError with
  | some te => simp
  | none =>
    by_cases hr : s.isRunning
    · simp [hr]
    · rcases hce : s.createError
        ("Operation is not running (status: " ++ statusToString s.status ++ ")") t with ⟨s1, r⟩
      have h1 : s1.timeoutSet = s.timeoutSet := by
        rw [← createError_timeoutSet s
          ("Operation is not running (status: " ++ statusToString s.status ++ ")") t, hce]
      cases r <;> simp [hr, hce, h1]

/-- C10: `setTimeout` never consults the status — its first invocation (no
handle present) schedules the timer and succeeds whatever the status, and it
throws exactly when a handle already exists; the scheduled callback is guarded
by `isRunning()`, so firing on a non-running operation changes no state. -/
theorem setTimeout_ignores_status :
    (∀ (s : OperationContext) (maxTime now : Int), s.timeoutSet = false →
      s.setTimeout maxTime now = ({ s with timeoutSet := true }, none)) ∧
    (∀ (s : OperationContext) (maxTime now : Int), s.timeoutSet = true →
      ((s.setTimeout maxTime now).2).isSome = true) ∧
    (∀ (s : OperationContext) (maxTime now : Int),
      s.status ≠ OperationContextStatus.running →
      s.timeoutFire maxTime now = s) := by
  refine ⟨fun s maxT now h => by simp [OperationContext.setTimeout, h],
    fun s maxT now h => ?_, fun s maxT now h => ?_⟩
  · unfold OperationContext.setTimeout
    rcases hce : s.createError "Cannot set another timeout on the operation" now with ⟨s1, r⟩
    cases r <;> simp [h, hce]
  · have hr : s.isRunning = false := by
      simp [OperationContext.isRunning, h]
    simp [OperationContext.timeoutFire, hr]

/-- Witness for C10: a first `setTimeout` succeeds on an ended operation, a
second one throws, and the callback firing on that ended operation is a
no-op. -/
theorem setTimeout_ignores_status_witness :
    (execTrace (OperationContext.initial 100) [Op.endOp 110]).setTimeout 50 120 =
      ({ execTrace (OperationContext.initial 100) [Op.endOp 110] with timeoutSet := true }, none) ∧
    ((({ execTrace (OperationContext.initial 100) [Op.endOp 110] with timeoutSet := true }).setTimeout
        60 130).2).isSome = true ∧
    ({ execTrace (OperationContext.initial 100) [Op.endOp 110] with
        timeoutSet := true }).timeoutFire 60 140 =
      { execTrace (OperationContext.initial 100) [Op.endOp 110] with timeoutSet := true } :=
  ⟨setTimeout_ignores_status.1 (execTrace (OperationContext.initial 100) [Op.endOp 110]) 50 120 rfl,
   setTimeout_ignores_status.2.1
     { execTrace (OperationContext.initial 100) [Op.endOp 110] with timeoutSet := true } 60 130 rfl,
   setTimeout_ignores_status.2.2
     { execTrace (OperationContext.initial 100) [Op.endOp 110] with timeoutSet := true } 60 140
     (by decide)⟩

lemma execOp_timeoutSet_mono (s : OperationContext) (op : Op)
    (h : s.timeoutSet = true) : ((execOp s op).1).timeoutSet = true := by
  cases op with
  | setValues v str now =>
    rcases hcp : s.checkpoint now with ⟨s1, j⟩
    have h1 : s1.timeoutSet = true := by rw [← h, ← checkpoint_timeoutSet s now, hcp]
    cases j <;> simp [execOp, OperationContext.setValues, hcp, h1]
  | cancel now =>
    rcases hcp : s.checkpoint now with ⟨s1, j⟩
    have h1 : s1.timeoutSet = true := by rw [← h, ← checkpoint_timeoutSet s now, hcp]
    cases j with
    | some j => simp [execOp, OperationContext.cancel, hcp, h1]
    | none =>
      simp only [execOp, OperationContext.cancel, hcp]
      unfold OperationContext.setStatus
      by_cases h2 : s1.status = OperationContextStatus.running <;>
        simp [h2, applyTerminal_timeoutSet, h1]
  | endOp now =>
    rcases hcp : s.checkpoint now with ⟨s1, j⟩
    have h1 : s1.timeoutSet = true := by rw [← h, ← checkpoint_timeoutSet s now, hcp]
    cases j with
    | some j => simp [execOp, OperationContext.endOp, hcp, h1]
    | none =>
      simp only [execOp, OperationContext.endOp, hcp]
      by_cases hbg : s1.activeProcesses > 0
      · rcases hce : s1.createError
          "Cannot end an operation with background processes, please use .wait()" now with ⟨s2, r⟩
        have h2 : s2.timeoutSet = true := by
          rw [← h1, ← createError_timeoutSet s1
            "Cannot end an operation with background processes, please use .wait()" now, hce]
        cases r <;> simp [hbg, hce, h2]
      · unfold OperationContext.setStatus
        by_cases h2 : s1.status = OperationContextStatus.running <;>
          simp [hbg, h2, applyTerminal_timeoutSet, h1]
  | createError m now =>
    rcases hce : s.createError m now with ⟨s1, r⟩
    have h1 : s1.timeoutSet = true := by rw [← h, ← createError_timeoutSet s m now, hce]
    cases r <;> simp [execOp, hce, h1]
  | setTimeout maxT now =>
    by_cases hts : s.timeoutSet
    · rcases hce : s.createError "Cannot set another timeout on the operation" now with ⟨s1, r⟩
      have h1 : s1.timeoutSet = true := by
        rw [← h, ← createError_timeoutSet s "Cannot set another timeout on the operation" now, hce]
      cases r <;> simp [execOp, OperationContext.setTimeout, hts, hce, h1]
    · simp [execOp, OperationContext.setTimeout, hts]
  | timeoutFire maxT now =>
    by_cases hr : s.isRunning
    · rcases hce : s.createError ("Operation timed out after " ++ toString maxT ++ "ms") now with ⟨s1, r⟩
      have h1 : s1.timeoutSet = true := by
        rw [← h, ← createError_timeoutSet s
          ("Operation timed out after " ++ toString maxT ++ "ms") now, hce]
      cases r <;> simp [execOp, OperationContext.timeoutFire, hr, hce, h1]
    · simp [execOp, OperationContext.timeoutFire, hr, h]
  | timerEnd name t0 now => simp [execOp, OperationContext.timerEnd, h]
  | addBackgroundProcess now =>
    have h1 : (({ s with activeProcesses := s.activeProcesses + 1 } :
        OperationContext).checkpoint now).1.timeoutSet = true := by
      rw [checkpoint_timeoutSet]; exact h
    simpa [execOp, OperationContext.addBackgroundProcess] using h1
  | bgFail m now =>
    have h1 : ((s.createError m now).1).timeoutSet = true := by
      rw [createError_timeoutSet]; exact h
    simpa [execOp, OperationContext.bgFail] using h1
  | bgOk => simpa [execOp] using h

lemma execTrace_timeoutSet_mono (s : OperationContext) (ops : List Op)
    (h : s.timeoutSet = true) : (execTrace s ops).timeoutSet = true := by
  induction ops generalizing s with
  | nil => simpa [execTrace] using h
  | cons op ops ih => exact ih _ (execOp_timeoutSet_mono s op h)

/-- C7: a successful `setTimeout` records the timeout handle; the handle is
never cleared by any later operation; and once the handle exists, every
further `setTimeout` call fails by throwing, whatever the status — so at most
one timeout is ever scheduled per operation. -/
theorem second_setTimeout_always_throws :
    (∀ (s : OperationContext) (maxTime now : Int), s.timeoutSet = false →
      s.setTimeout maxTime now = ({ s with timeoutSet := true }, none)) ∧
    (∀ (s : OperationContext) (ops : List Op) (maxTime now : Int),
      s.timeoutSet = true →
      (execTrace s ops).timeoutSet = true ∧
      (((execTrace s ops).setTimeout maxTime now).2).isSome = true) := by
  refine ⟨fun s maxT now h => by simp [OperationContext.setTimeout, h],
    fun s ops maxT now h => ?_⟩
  have hmono := execTrace_timeoutSet_mono s ops h
  refine ⟨hmono, ?_⟩
  unfold OperationContext.setTimeout
  rcases hce : (execTrace s ops).createError "Cannot set another timeout on the operation" now
    with ⟨s1, r⟩
  cases r <;> simp [hmono, hce]

/-- Witness for C7: after `setTimeout` on a fresh operation followed by
`cancel`, the handle is still set and a second `setTimeout` throws. -/
theorem second_setTimeout_always_throws_witness :
    ((OperationContext.initial 100).setTimeout 50 101 =
      ({ OperationContext.initial 100 with timeoutSet := true }, none)) ∧
    ((execTrace { OperationContext.initial 100 with timeoutSet := true }
        [Op.cancel 110]).timeoutSet = true ∧
      (((execTrace { OperationContext.initial 100 with timeoutSet := true }
        [Op.cancel 110]).setTimeout 60 120).2).isSome = true) :=
  ⟨second_setTimeout_always_throws.1 (OperationContext.initial 100) 50 101 rfl,
   second_setTimeout_always_throws.2
     { OperationContext.initial 100 with timeoutSet := true } [Op.cancel 110] 60 120 rfl⟩

/- ### C1: createError from a terminal state -/

/-- C1 evaluation at the failing input: on a context that was cancelled at
`t = 110`, `createError("boom")` does not set status to `failed`, does not
append an error, and does not return the error — instead the `setStatus`
guard inside it throws the plain error `Cannot change status from cancelled`.
This contradicts both the spec's error-creation contract and the code's own
checkpoint, which passes a "not running" message to `createError` expecting
an error object back that can never be constructed. -/
theorem createError_throws_from_terminal_state :
    (execTrace (OperationContext.initial 100) [Op.cancel 110]).createError "boom" 120 =
      (execTrace (OperationContext.initial 100) [Op.cancel 110],
        Except.error (JsError.plain "Cannot change status from cancelled")) ∧
    ((execTrace (OperationContext.initial 100) [Op.cancel 110]).createError "boom" 120).1.errors = [] ∧
    ((execTrace (OperationContext.initial 100) [Op.cancel 110]).createError "boom" 120).1.status =
      OperationContextStatus.cancelled := by
  refine ⟨?_, ?_, ?_⟩ <;> rfl

/- ### C2: mutators after leaving the running status -/

/-- C2 counterexample: after `cancel()` at a concrete time, `setValues` does
throw, but the thrown value is the plain status-guard error
`Cannot change status from cancelled` — not the "not running" operation error
the claim describes, which is never constructed. -/
theorem setValues_after_cancel_not_a_not_running_error :
    ((execTrace (OperationContext.initial 100) [Op.cancel 110]).setValues [] "Error" 120).2 =
      some (JsError.plain "Cannot change status from cancelled") ∧
    decide (JsError.plain "Cannot change status from cancelled" =
      JsError.plain "Operation is not running (status: cancelled)") = false := by
  exact ⟨rfl, by decide⟩

/-- C2 amended: once the operation has left `running`, `isRunning()` is false
and every subsequent `setValues`/`cancel`/`end` call fails by throwing —
`setValues` with the cached timeout error when a timeout fired, and otherwise
with the plain `Cannot change status from ...` error raised while the
checkpoint attempts to record its "not running" failure. -/
theorem mutators_throw_after_terminal (s : OperationContext) (v : Values)
    (str : String) (now : Int) (h : s.status ≠ OperationContextStatus.running) :
    s.isRunning = false ∧
    ((s.setValues v str now).2).isSome = true ∧
    ((s.cancel now).2).isSome = true ∧
    ((s.endOp now).2).isSome = true ∧
    (∀ te, s.timeoutError = some te → (s.setValues v str now).2 = some (JsError.opErr te)) ∧
    (s.timeoutError = none →
      (s.setValues v str now).2 =
        some (JsError.plain ("Cannot change status from " ++ statusToString s.status))) := by
  have hr : s.isRunning = false := by simp [OperationContext.isRunning, h]
  have hcp : ∀ j, (s.checkpoint now).2 = some j →
      (s.setValues v str now).2 = some j ∧ (s.cancel now).2 = some j ∧
      (s.endOp now).2 = some j := by
    intro j hj
    rcases hcpe : s.checkpoint now with ⟨s1, j2⟩
    rw [hcpe] at hj
    simp at hj
    subst hj
    exact ⟨by simp [OperationContext.setValues, hcpe],
      by simp [OperationContext.cancel, hcpe],
      by simp [OperationContext.endOp, hcpe]⟩
  cases hte : s.timeoutError with
  | some te =>
    have hj : (s.checkpoint now).2 = some (JsError.opErr te) := by
      simp [OperationContext.checkpoint, hte]
    obtain ⟨h1, h2, h3⟩ := hcp _ hj
    exact ⟨hr, by simp [h1], by simp [h2], by simp [h3],
      fun te2 hte2 => by injection hte2 with h4; subst h4; exact h1,
      fun hnone => by simp at hnone⟩
  | none =>
    have hj : (s.checkpoint now).2 =
        some (JsError.plain ("Cannot change status from " ++ statusToString s.status)) := by
      unfold OperationContext.checkpoint
      rw [hte]
      unfold OperationContext.createError OperationContext.setStatus
      by_cases h1 : s.endedAt = none <;> simp [hr, h1, h]
    obtain ⟨h1, h2, h3⟩ := hcp _ hj
    exact ⟨hr, by simp [h1], by simp [h2], by simp [h3],
      fun te2 hte2 => by simp at hte2,
      fun _ => h1⟩

/-- Witness for C2's amended claim: a cancelled context and a timed-out
context both refuse all three mutators with the stated errors. -/
theorem mutators_throw_after_terminal_witness :
    (execTrace (OperationContext.initial 100) [Op.cancel 110]).isRunning = false ∧
    (((execTrace (OperationContext.initial 100) [Op.cancel 110]).setValues [("a", 1)] "E" 120).2).isSome = true ∧
    (((execTrace (OperationContext.initial 100) [Op.cancel 110]).cancel 120).2).isSome = true ∧
    (((execTrace (OperationContext.initial 100) [Op.cancel 110]).endOp 120).2).isSome = true ∧
    (∀ te, (execTrace (OperationContext.initial 100) [Op.cancel 110]).timeoutError = some te →
      ((execTrace (OperationContext.initial 100) [Op.cancel 110]).setValues [("a", 1)] "E" 120).2 =
        some (JsError.opErr te)) ∧
    ((execTrace (OperationContext.initial 100) [Op.cancel 110]).timeoutError = none →
      ((execTrace (OperationContext.initial 100) [Op.cancel 110]).setValues [("a", 1)] "E" 120).2 =
        some (JsError.plain ("Cannot change status from " ++
          statusToString (execTrace (OperationContext.initial 100) [Op.cancel 110]).status))) :=
  mutators_throw_after_terminal (execTrace (OperationContext.initial 100) [Op.cancel 110])
    [("a", 1)] "E" 120 (by decide)

/- ### C5: a background-gated end() terminates the operation -/

/-- C5: calling `end()` on a running operation (no fired timeout) with at
least one registered background process throws the gating error — but the
failure is produced through `createError`, so it is not state-preserving: the
status becomes `failed`, `endedAt` is stamped, the gating error is appended to
the errors list, the metrics are finalized, and the condition variable is
released. -/
theorem gated_end_terminates_operation (s : OperationContext) (now : Int)
    (h1 : s.status = OperationContextStatus.running)
    (h2 : s.timeoutError = none) (h3 : 0 < s.activeProcesses) :
    s.endOp now =
      ({ s with
          status := OperationContextStatus.failed
          endedAt := some now
          waitCond := (s.waitCond.unlock).1
          metrics := finalizeMetrics s.metrics (now - s.startedAt)
          errors := s.errors ++
            [⟨"Cannot end an operation with background processes, please use .wait()", now⟩] },
        some (JsError.opErr
          ⟨"Cannot end an operation with background processes, please use .wait()", now⟩)) ∧
    ((s.endOp now).1).waitCond.lockState = false := by
  have hr : s.isRunning = true := by simp [OperationContext.isRunning, h1]
  have hcp : s.checkpoint now = (s, none) := by
    simp [OperationContext.checkpoint, h2, hr]
  have hmain : s.endOp now =
      ({ s with
          status := OperationContextStatus.failed
          endedAt := some now
          waitCond := (s.waitCond.unlock).1
          metrics := finalizeMetrics s.metrics (now - s.startedAt)
          errors := s.errors ++
            [⟨"Cannot end an operation with background processes, please use .wait()", now⟩] },
        some (JsError.opErr
          ⟨"Cannot end an operation with background processes, please use .wait()", now⟩)) := by
    simp only [OperationContext.endOp, hcp]
    have h3' : s.activeProcesses > 0 := h3
    simp only [h3', if_true]
    unfold OperationContext.createError OperationContext.setStatus
      OperationContext.applyTerminal
    by_cases h4 : s.endedAt = none <;> simp [h4, h1]
  refine ⟨hmain, ?_⟩
  rw [hmain, Cond.unlock_eq]

/-- Witness for C5: a running operation with one registered background
process. -/
theorem gated_end_terminates_operation_witness :
    ({ OperationContext.initial 100 with activeProcesses := 1 } : OperationContext).endOp 120 =
      ({ { OperationContext.initial 100 with activeProcesses := 1 } with
          status := OperationContextStatus.failed
          endedAt := some 120
          waitCond := (({ OperationContext.initial 100 with
            activeProcesses := 1 } : OperationContext).waitCond.unlock).1
          metrics := finalizeMetrics
            ({ OperationContext.initial 100 with activeProcesses := 1 } :
              OperationContext).metrics (120 - 100)
          errors := ({ OperationContext.initial 100 with activeProcesses := 1 } :
              OperationContext).errors ++
            [⟨"Cannot end an operation with background processes, please use .wait()", 120⟩] },
        some (JsError.opErr
          ⟨"Cannot end an operation with background processes, please use .wait()", 120⟩)) ∧
    ((({ OperationContext.initial 100 with activeProcesses := 1 } :
        OperationContext).endOp 120).1).waitCond.lockState = false :=
  gated_end_terminates_operation
    { OperationContext.initial 100 with activeProcesses := 1 } 120 rfl rfl (by decide)

/- ### C6: metric percentages -/

/-- All metric percentages still hold the `-1` sentinel. -/
def metricsAllSentinel (s : OperationContext) : Prop :=
  (∀ e ∈ s.metrics.entries, e.percentage = -1) ∧
  (∀ c ∈ s.metrics.cumulative, c.totalPercentage = -1)

lemma applyTerminal_status (s : OperationContext) (st : OperationContextStatus)
    (now : Int) : (s.applyTerminal st now).status = st := rfl

lemma checkpoint_metrics (s : OperationContext) (t : Int) :
    ((s.checkpoint t).1).metrics = s.metrics ∧ ((s.checkpoint t).1).status = s.status := by
  unfold OperationContext.checkpoint
  cases hte : s.timeoutError with
  | some te => simp
  | none =>
    by_cases hr : s.isRunning
    · simp [hr]
    · have hns : s.status ≠ OperationContextStatus.running := by
        simpa [OperationContext.isRunning] using hr
      unfold OperationContext.createError OperationContext.setStatus
      by_cases h1 : s.endedAt = none <;> simp [hr, h1, hns]

lemma createError_not_running (s : OperationContext) (m : String) (t : Int)
    (h : s.status ≠ OperationContextStatus.running) :
    ((s.createError m t).1).metrics = s.metrics ∧
    ((s.createError m t).1).status = s.status := by
  unfold OperationContext.createError OperationContext.setStatus
  by_cases h1 : s.endedAt = none <;> simp [h1, h]

lemma createError_running_status (s : OperationContext) (m : String) (t : Int)
    (h : s.status = OperationContextStatus.running) :
    ((s.createError m t).1).status = OperationContextStatus.failed := by
  unfold OperationContext.createError OperationContext.setStatus
  by_cases h1 : s.endedAt = none <;> simp [h1, h, applyTerminal_status]

lemma sentinel_transfer {s s1 : OperationContext}
    (hm : s1.metrics = s.metrics) (hs : s1.status = s.status)
    (h : s.status = OperationContextStatus.running → metricsAllSentinel s) :
    s1.status = OperationContextStatus.running → metricsAllSentinel s1 := by
  intro hr
  rw [hs] at hr
  have := h hr
  unfold metricsAllSentinel at this ⊢
  rw [hm]
  exact this

lemma timerEnd_sentinel (s : OperationContext) (name : String) (t0 now : Int)
    (h : metricsAllSentinel s) : metricsAllSentinel (s.timerEnd name t0 now) := by
  obtain ⟨he, hc⟩ := h
  constructor
  · intro e hme
    simp only [OperationContext.timerEnd, List.mem_append, List.mem_singleton] at hme
    rcases hme with hme | rfl
    · exact he e hme
    · rfl
  · intro c hmc
    simp only [OperationContext.timerEnd] at hmc
    rcases List.mem_map.mp hmc with ⟨c2, hc2, rfl⟩
    have htp : ∀ c3 : OperationCumulativeMetric,
        (bumpCumulative name (now - t0) c3).totalPercentage = c3.totalPercentage := by
      intro c3
      unfold bumpCumulative
      by_cases hn : c3.name = name <;> simp [hn]
    rw [htp c2]
    by_cases hfound : s.metrics.cumulative.any (fun c3 => c3.name = name)
    · rw [if_pos hfound] at hc2
      exact hc c2 hc2
    · rw [if_neg hfound] at hc2
      rcases List.mem_append.mp hc2 with hmem | hmem
      · exact hc c2 hmem
      · rw [List.mem_singleton.mp hmem]

lemma execOp_sentinel (s : OperationContext) (op : Op)
    (h : s.status = OperationContextStatus.running → metricsAllSentinel s) :
    ((execOp s op).1).status = OperationContextStatus.running →
      metricsAllSentinel (execOp s op).1 := by
  cases op with
  | setValues v str now =>
    rcases hcp : s.checkpoint now with ⟨s1, j⟩
    have hm : s1.metrics = s.metrics := by rw [← (checkpoint_metrics s now).1, hcp]
    have hs : s1.status = s.status := by rw [← (checkpoint_metrics s now).2, hcp]
    cases j with
    | some j => simpa [execOp, OperationContext.setValues, hcp] using sentinel_transfer hm hs h
    | none =>
      have := @sentinel_transfer s { s1 with stack := s1.stack ++ [⟨v, str, now⟩] } hm hs h
      simpa [execOp, OperationContext.setValues, hcp] using this
  | cancel now =>
    rcases hcp : s.checkpoint now with ⟨s1, j⟩
    have hm : s1.metrics = s.metrics := by rw [← (checkpoint_metrics s now).1, hcp]
    have hs : s1.status = s.status := by rw [← (checkpoint_metrics s now).2, hcp]
    cases j with
    | some j => simpa [execOp, OperationContext.cancel, hcp] using sentinel_transfer hm hs h
    | none =>
      simp only [execOp, OperationContext.cancel, hcp]
      unfold OperationContext.setStatus
      by_cases h2 : s1.status = OperationContextStatus.running
      · simp only [h2, ne_eq, not_true_eq_false, if_false, ite_false]
        intro hr
        rw [applyTerminal_status] at hr
        exact OperationContextStatus.noConfusion hr
      · simp only [h2, ne_eq, not_false_eq_true, if_true, ite_true]
        exact fun hf => hf.elim
  | endOp now =>
    rcases hcp : s.checkpoint now with ⟨s1, j⟩
    have hm : s1.metrics = s.metrics := by rw [← (checkpoint_metrics s now).1, hcp]
    have hs : s1.status = s.status := by rw [← (checkpoint_metrics s now).2, hcp]
    cases j with
    | some j => simpa [execOp, OperationContext.endOp, hcp] using sentinel_transfer hm hs h
    | none =>
      simp only [execOp, OperationContext.endOp, hcp]
      by_cases hbg : s1.activeProcesses > 0
      · simp only [hbg, if_true, ite_true]
        rcases hce : s1.createError
          "Cannot end an operation with background processes, please use .wait()" now with ⟨s2, r⟩
        by_cases h2 : s1.status = OperationContextStatus.running
        · have h3 : s2.status = OperationContextStatus.failed := by
            rw [← createError_running_status s1
              "Cannot end an operation with background processes, please use .wait()" now h2, hce]
          cases r <;> simp only [] <;> intro hr <;> rw [h3] at hr <;>
            exact OperationContextStatus.noConfusion hr
        · have h3 := createError_not_running s1
            "Cannot end an operation with background processes, please use .wait()" now h2
          rw [hce] at h3
          have hm2 : s2.metrics = s.metrics := by rw [h3.1, hm]
          have hs2 : s2.status = s.status := by rw [h3.2, hs]
          cases r <;> exact sentinel_transfer hm2 hs2 h
      · simp only [hbg, if_false, ite_false]
        unfold OperationContext.setStatus
        by_cases h2 : s1.status = OperationContextStatus.running
        · simp only [h2, ne_eq, not_true_eq_false, if_false, ite_false]
          intro hr
          rw [applyTerminal_status] at hr
          exact OperationContextStatus.noConfusion hr
        · simp only [h2, ne_eq, not_false_eq_true, if_true, ite_true]
          exact fun hf => hf.elim
  | createError m now =>
    rcases hce : s.createError m now with ⟨s1, r⟩
    by_cases h2 : s.status = OperationContextStatus.running
    · have h3 : s1.status = OperationContextStatus.failed := by
        rw [← createError_running_status s m now h2, hce]
      cases r <;> simp only [execOp, hce] <;> intro hr <;> rw [h3] at hr <;>
        exact OperationContextStatus.noConfusion hr
    · have h3 := createError_not_running s m now h2
      rw [hce] at h3
      cases r <;> simp only [execOp, hce] <;> exact sentinel_transfer h3.1 h3.2 h
  | setTimeout maxT now =>
    by_cases hts : s.timeoutSet
    · simp only [execOp, OperationContext.setTimeout, hts, if_true, ite_true]
      rcases hce : s.createError "Cannot set another timeout on the operation" now with ⟨s1, r⟩
      by_cases h2 : s.status = OperationContextStatus.running
      · have h3 : s1.status = OperationContextStatus.failed := by
          rw [← createError_running_status s "Cannot set another timeout on the operation" now h2, hce]
        cases r <;> simp only [] <;> intro hr <;> rw [h3] at hr <;>
          exact OperationContextStatus.noConfusion hr
      · have h3 := createError_not_running s "Cannot set another timeout on the operation" now h2
        rw [hce] at h3
        cases r <;> exact sentinel_transfer h3.1 h3.2 h
    · simp only [execOp, OperationContext.setTimeout, hts, if_false, ite_false]
      exact @sentinel_transfer s { s with timeoutSet := true } rfl rfl h
  | timeoutFire maxT now =>
    by_cases hr : s.isRunning
    · have h2 : s.status = OperationContextStatus.running := by
        simpa [OperationContext.isRunning] using hr
      rcases hce : s.createError ("Operation timed out after " ++ toString maxT ++ "ms") now with ⟨s1, r⟩
      have h3 : s1.status = OperationContextStatus.failed := by
        rw [← createError_running_status s
          ("Operation timed out after " ++ toString maxT ++ "ms") now h2, hce]
      cases r with
      | ok e =>
        simp only [execOp, OperationContext.timeoutFire, hr, if_true, ite_true, hce]
        intro hrr
        have hrr2 : s1.status = OperationContextStatus.running := hrr
        rw [h3] at hrr2
        exact OperationContextStatus.noConfusion hrr2
      | error j =>
        simp only [execOp, OperationContext.timeoutFire, hr, if_true, ite_true, hce]
        intro hrr
        have hrr2 : s1.status = OperationContextStatus.running := hrr
        rw [h3] at hrr2
        exact OperationContextStatus.noConfusion hrr2
    · simp only [execOp, OperationContext.timeoutFire, hr, if_false, ite_false]
      exact h
  | timerEnd name t0 now =>
    simp only [execOp]
    intro hrr
    have hrr2 : s.status = OperationContextStatus.running := hrr
    exact timerEnd_sentinel s name t0 now (h hrr2)
  | addBackgroundProcess now =>
    have hcm := checkpoint_metrics { s with activeProcesses := s.activeProcesses + 1 } now
    simp only [execOp, OperationContext.addBackgroundProcess]
    exact sentinel_transfer hcm.1 hcm.2 h
  | bgFail m now =>
    simp only [execOp, OperationContext.bgFail]
    by_cases h2 : s.status = OperationContextStatus.running
    · have h3 := createError_running_status s m now h2
      intro hrr
      rw [h3] at hrr
      exact OperationContextStatus.noConfusion hrr
    · have h3 := createError_not_running s m now h2
      exact sentinel_transfer h3.1 h3.2 h
  | bgOk => simpa [execOp] using h

lemma execTrace_sentinel (s : OperationContext) (ops : List Op)
    (h : s.status = OperationContextStatus.running → metricsAllSentinel s) :
    (execTrace s ops).status = OperationContextStatus.running →
      metricsAllSentinel (execTrace s ops) := by
  induction ops generalizing s with
  | nil => simpa [execTrace] using h
  | cons op ops ih => exact ih _ (execOp_sentinel s op h)

/-- C6: along every operation sequence, while the operation is still running
every discrete metric entry's `percentage` and every cumulative metric's
`totalPercentage` hold the sentinel `-1` (in particular from a timer's
`end()` until termination); and on the terminal transition (`setStatus` from
`running`, through which `cancel`/`end`/`createError`/the timeout all pass)
every entry is back-filled in one pass from the now-known total duration and
the cumulative entries are sorted in descending order of total percentage. -/
theorem metrics_sentinel_until_backfill_and_sort :
    (∀ (t0 : Int) (ops : List Op),
      (execTrace (OperationContext.initial t0) ops).status = OperationContextStatus.running →
      metricsAllSentinel (execTrace (OperationContext.initial t0) ops)) ∧
    (∀ (s : OperationContext) (st : OperationContextStatus) (now : Int),
      s.status = OperationContextStatus.running →
      s.setStatus st now = (s.applyTerminal st now, none) ∧
      (s.applyTerminal st now).metrics.entries =
        s.metrics.entries.map (fun e =>
          { e with percentage := (e.duration : ℚ) / ((now - s.startedAt : Int) : ℚ) }) ∧
      ((s.applyTerminal st now).metrics.cumulative).Perm
        (s.metrics.cumulative.map (fun c =>
          { c with totalPercentage := (c.totalDuration : ℚ) / ((now - s.startedAt : Int) : ℚ) })) ∧
      List.Sorted cumDescRel ((s.applyTerminal st now).metrics.cumulative)) := by
  constructor
  · intro t0 ops
    apply execTrace_sentinel
    intro _
    exact ⟨fun e he => by simp [OperationContext.initial] at he,
      fun c hc => by simp [OperationContext.initial] at hc⟩
  · intro s st now h
    refine ⟨by simp [OperationContext.setStatus, h], ?_, ?_, ?_⟩
    · simp [OperationContext.applyTerminal, finalizeMetrics]
    · simp only [OperationContext.applyTerminal, finalizeMetrics]
      exact List.perm_insertionSort cumDescRel _
    · simp only [OperationContext.applyTerminal, finalizeMetrics]
      exact List.sorted_insertionSort cumDescRel _

/-- Witness for C6: a trace that ends a timer while running keeps the
sentinel, and a concrete running state takes the back-filling terminal
transition. -/
theorem metrics_sentinel_until_backfill_and_sort_witness :
    metricsAllSentinel (execTrace (OperationContext.initial 100) [Op.timerEnd "x" 100 105]) ∧
    (OperationContext.initial 100).setStatus OperationContextStatus.ended 120 =
      ((OperationContext.initial 100).applyTerminal OperationContextStatus.ended 120, none) :=
  ⟨metrics_sentinel_until_backfill_and_sort.1 100 [Op.timerEnd "x" 100 105] rfl,
   (metrics_sentinel_until_backfill_and_sort.2 (OperationContext.initial 100)
     OperationContextStatus.ended 120 rfl).1⟩
